import Mathlib

/-!
Verification of the conversational retrieval engine and its callers
(`src/utils/qa_chain.py`, `src/app.py`, `src/utils/streamlit.py`,
`src/create_statistical_summary.py`) of the ask-bi repository.

The Python code is shallowly embedded: dictionaries become association
lists, a raised exception becomes the `Except.error` branch, the LLM and
the vector store are oracle parameters.  `utils/vectorstore.py` is not
present in the source tree, so the store's similarity search is modelled
from the specification (see `VectorStore`).
-/

/-- A chat message dictionary `{"role": ..., "content": ...}` as passed to
`chat_history_to_str` in `src/utils/qa_chain.py`. -/
structure ChatMsg where
  role : String
  content : String
deriving DecidableEq, Repr

/-- The per-message line `f"{role}: {message['content']}\n\n"` appended by the
loop body of `chat_history_to_str` (qa_chain.py lines 23-25), including the
role normalisation `role = "User" if message["role"] == "user" else "Assistant"`. -/
def historyLine (m : ChatMsg) : String :=
  (if m.role = "user" then "User" else "Assistant") ++ ": " ++ m.content ++ "\n\n"

/-- Embedding of `chat_history_to_str` (qa_chain.py lines 11-27).
`none` models passing Python `None` (the default argument of `qa_search`);
the guard `if chat_history and len(chat_history) > 0` is false for both
`None` and the empty list. -/
def chat_history_to_str (chat_history : Option (List ChatMsg)) : String :=
  match chat_history with
  | none => ""
  | some msgs =>
    if msgs.length > 0 then
      msgs.foldl (fun acc m => acc ++ historyLine m) ""
    else ""

/-- A LangChain `Document` as consumed by `qa_search`: `page_content`, a
`metadata` dictionary, and an optional `similarity_score` attribute
(qa_chain.py line 99 checks `hasattr(doc, "similarity_score")`).
`μ` is the type of metadata values. -/
structure Doc (μ : Type) where
  page_content : String
  metadata : List (String × μ)
  similarity_score : Option μ

/-- Modelled from the spec: `utils/vectorstore.py` (the Vector Index Adapter
wrapping the persistent store) is not under `src/`; only its callers are.
Spec section 4.2: `search(index, query, k)` returns the `k` nearest documents by
the store's distance metric, ranked best match first; section 8: the search
returns `k` documents when the index holds at least `k` and all of them
otherwise.  We model the store as, for each query, a similarity ranking `rank`
that permutes the documents it holds; the retriever takes the first `k` of that
ranking.  `reachable = false` models an unreachable store, whose search call
raises `failMsg` (spec section 7, RetrievalError). -/
structure VectorStore (μ : Type) where
  docs : List (Doc μ)
  rank : String → List (Doc μ) → List (Doc μ)
  rank_perm : ∀ q l, List.Perm (rank q l) l
  reachable : Bool
  failMsg : String

/-- Embedding of `vectorstore.as_retriever(search_type="similarity",
search_kwargs={"k": k})` followed by `.invoke(q)` (qa_chain.py lines 44-47, 90):
the retriever returns the top-`k` documents of the store's similarity ranking,
or raises when the store is unreachable. -/
def retrieverInvoke (vs : VectorStore μ) (k : Nat) (q : String) :
    Except String (List (Doc μ)) :=
  if vs.reachable then .ok ((vs.rank q vs.docs).take k) else .error vs.failMsg

/-- Text of the prompt template (qa_chain.py lines 50-69) before the
`{chat_history}` slot. -/
def templateHead : String :=
  "You are a helpful assistant that provides accurate information based on the given context.\n    \n    Chat History:\n    "

/-- Template text between the `{chat_history}` and `{context}` slots. -/
def templateMid1 : String := "\n\n    Context:\n    "

/-- Template text between the `{context}` and `{question}` slots. -/
def templateMid2 : String := "\n    \n    Question:\n    "

/-- Template text after the `{question}` slot: the fixed system instruction
block (qa_chain.py lines 61-69). -/
def templateTail : String :=
  "\n    \n    Answer the question based only on the provided context.\n    If the context is incomplete or vague, do your best to respond using the available information. \n    If the question appears incomplete (e.g. starts with “Can you find”, “Do you”, or cuts off unexpectedly), politely inform the user that the question seems incomplete and ask them to rephrase. \n    If the question refers to previous questions or responses, use the chat history to understand what the user is referring to.\n    If a full answer isn’t possible, clearly state what’s missing and politely ask the user for clarification. \n    Do not invent or assume facts that are not explicitly present in the context. \n    Keep responses brief and focused (no more than 300 words). \n    Avoid repetition and long paragraphs. \n    "

/-- `create_stuff_documents_chain`'s rendering of the retrieved documents into
the `{context}` slot: each document's `page_content`, joined by the default
separator `"\n\n"` (a blank line). -/
def formatDocs (docs : List (Doc μ)) : String :=
  String.intercalate "\n\n" (docs.map (fun d => d.page_content))

/-- Python `str()` of the chain input dictionary
`\x7b"question": query, "chat_history": rendered\x7d`.  `RunnablePassthrough()`
returns its whole input unchanged, so this dictionary — not one of its
fields — is what the `{question}` and `{chat_history}` slots receive
(qa_chain.py lines 77-85).  Python renders the dict with single-quoted keys
and values; escaping of special characters inside the strings is elided. -/
def runnableInputStr (question chat_history : String) : String :=
  "\x7b\x27question\x27: \x27" ++ question ++ "\x27, \x27chat_history\x27: \x27" ++
    chat_history ++ "\x27\x7d"

/-- The fully formatted prompt string the generation call receives: the
template with `{chat_history}` and `{question}` filled by the string rendering
of the whole input dictionary (both slots are fed by `RunnablePassthrough()`)
and `{context}` filled by the formatted retrieved documents. -/
def buildPrompt (question chat_history : String) (context_docs : List (Doc μ)) :
    String :=
  templateHead ++ runnableInputStr question chat_history ++
    templateMid1 ++ formatDocs context_docs ++
    templateMid2 ++ runnableInputStr question chat_history ++
    templateTail

/-- The dictionary returned by `qa_search`.  `retrieved_count = none` and
`error = none` model the absence of those keys in the Python dict. -/
structure QAResult (μ : Type) where
  answer : String
  document_metadata : List (List (String × μ))
  raw_answer : String
  retrieved_count : Option Nat
  error : Option String

/-- Python dict update `meta[k] = v` on an association list: replace the
value in place if the key exists, otherwise append the new binding. -/
def assocSet (d : List (String × μ)) (k : String) (v : μ) : List (String × μ) :=
  if d.any (fun kv => kv.1 = k) then
    d.map (fun kv => if kv.1 = k then (k, v) else kv)
  else d ++ [(k, v)]

/-- The metadata extracted for one retrieved document (qa_chain.py lines
94-102): a copy of `doc.metadata` (empty when absent/falsy), with
`similarity_score` added when the attribute is present.  In this
value-semantics model the `dict(...)` copy is the identity; the reference
semantics of the copy is treated separately by the heap model below. -/
def extractMeta (doc : Doc μ) : List (String × μ) :=
  match doc.similarity_score with
  | some s => assocSet doc.metadata "similarity_score" s
  | none => doc.metadata

/-- The dictionary built by the `except` branch of `qa_search`
(qa_chain.py lines 120-127). -/
def mkErrorResult (μ : Type) (e : String) : QAResult μ :=
  { answer := "Error querying the model: " ++ e
    document_metadata := []
    raw_answer := "Error querying the model: " ++ e
    retrieved_count := none
    error := some e }

/-- Embedding of `qa_search` (qa_chain.py lines 30-127).  `llm` is the
generation oracle (the chain's prompt-to-text call; `.error` models a raised
exception).  The result is `Except.error` when an exception escapes the call:
that happens only for `vectorstore = none`, because `None.as_retriever`
raises an `AttributeError` on line 44, before the `try` block that starts on
line 88.  Inside the `try`, the code first retrieves documents (line 90),
extracts their metadata (lines 93-102), and then invokes the retrieval chain,
which re-invokes the retriever on `input["question"]` (line 79) and feeds the
assembled prompt to the LLM; any exception lands in the `except` branch. -/
def qa_search (llm : String → Except String String) (query : String)
    (vectorstore : Option (VectorStore μ)) (chat_history : Option (List ChatMsg))
    (k : Nat) : Except String (QAResult μ) :=
  match vectorstore with
  | none =>
    .error "AttributeError: \x27NoneType\x27 object has no attribute \x27as_retriever\x27"
  | some vs =>
    match retrieverInvoke vs k query with
    | .error e => .ok (mkErrorResult μ e)
    | .ok retrieved_docs =>
      let docs_metadata := retrieved_docs.map extractMeta
      match retrieverInvoke vs k query with
      | .error e => .ok (mkErrorResult μ e)
      | .ok context_docs =>
        match llm (buildPrompt query (chat_history_to_str chat_history) context_docs) with
        | .error e => .ok (mkErrorResult μ e)
        | .ok answer =>
          .ok { answer := answer
                document_metadata := docs_metadata
                raw_answer := answer
                retrieved_count := some retrieved_docs.length
                error := none }

/-- A message dictionary in the Streamlit session state (`st.session_state.messages`
in `src/app.py`): role, content, and — for assistant messages — the metadata of
the documents that grounded the answer (app.py lines 158, 189-193). -/
structure AppMsg (μ : Type) where
  role : String
  content : String
  metadata : Option (List (List (String × μ)))

/-- Embedding of `format_chat_history` (app.py lines 58-68; the identical copy in
`src/utils/streamlit.py` lines 74-92): keep the last `max_messages` messages
(`messages[-max_messages:]` guarded by `len(messages) > max_messages`) and
project each to a `{"role", "content"}` dictionary, normalising every
non-"user" role to "assistant". -/
def format_chat_history (messages : List (AppMsg μ)) (max_messages : Nat) :
    List ChatMsg :=
  let recent_messages :=
    if messages.length > max_messages then
      messages.drop (messages.length - max_messages)
    else messages
  recent_messages.map (fun m =>
    { role := if m.role = "user" then "user" else "assistant", content := m.content })

/-- The session-state fields touched by `clear_chat` (streamlit.py lines 64-71). -/
structure AppState (μ : Type) where
  messages : List (AppMsg μ)
  last_query : String
  should_process_query : Bool

/-- Embedding of `clear_chat` (streamlit.py lines 64-71): reset the messages to
the empty list, the last query to the empty string and the processing flag to
false. -/
def clear_chat (_s : AppState μ) : AppState μ :=
  { messages := [], last_query := "", should_process_query := false }

/-- Outcome of one query-processing pass of app.py: the new message list and
the error text displayed via `st.error`, if any. -/
structure ProcessOutcome (μ : Type) where
  messages : List (AppMsg μ)
  errorShown : Option String

/-- Embedding of the query-processing block of app.py (lines 151-211).  The
user turn is appended first (line 158).  With an absent vectorstore the else
branch (lines 208-211) shows the not-initialized message and `qa_search` is
never called.  Otherwise `qa_search` runs with the history of all messages but
the current query, capped at 10, and `k = 6` (lines 168-173); an exception
from it is caught at line 204.  Line 177 reads `result["retrieved_count"]`,
which raises a `KeyError` when `qa_search` returned its failure dictionary
(that key is absent there), so on that path the assistant append and the trim
are skipped and the except branch shows the error.  On the success path the
assistant turn is appended with the answer and metadata and the list is
trimmed to `messages[-10:]` when its length exceeds 10 (lines 189-198). -/
def processQuery (llm : String → Except String String)
    (store : Option (VectorStore μ)) (messages : List (AppMsg μ))
    (query : String) : ProcessOutcome μ :=
  let messages1 := messages ++ [⟨"user", query, none⟩]
  match store with
  | none => ⟨messages1, some "Knowledge base not initialized. Please try again."⟩
  | some vs =>
    match qa_search llm query (some vs) (some (format_chat_history messages 10)) 6 with
    | .error e => ⟨messages1, some ("Error generating response: " ++ e)⟩
    | .ok result =>
      match result.retrieved_count with
      | none =>
        ⟨messages1, some "Error generating response: \x27retrieved_count\x27"⟩
      | some _ =>
        let messages2 :=
          messages1 ++ [⟨"assistant", result.answer, some result.document_metadata⟩]
        ⟨if messages2.length > 10 then messages2.drop (messages2.length - 10)
          else messages2, none⟩

/-- Address of a dictionary on the Python heap. -/
abbrev Addr := Nat

/-- A Python value as stored in a metadata dictionary: a string, an integer,
or a reference to another dictionary on the heap (e.g. the nested `raw_data`
mapping). -/
inductive HVal where
  | str : String → HVal
  | int : Int → HVal
  | ref : Addr → HVal
deriving DecidableEq, Repr

/-- The Python heap restricted to dictionaries: position `a` holds the
dictionary at address `a`. -/
abbrev Heap := List (List (String × HVal))

/-- Read the dictionary at an address. -/
def heapGet (h : Heap) (a : Addr) : List (String × HVal) := h.getD a []

/-- Mutate one key of the dictionary at an address (`d[k] = v`). -/
def heapSet (h : Heap) (a : Addr) (k : String) (v : HVal) : Heap :=
  h.set a (assocSet (heapGet h a) k v)

/-- Look a key up in a dictionary. -/
def assocGet (d : List (String × μ)) (k : String) : Option μ :=
  (d.find? (fun kv => kv.1 == k)).map (fun kv => kv.2)

/-- A retrieved document under reference semantics: its `metadata` attribute
is a reference to a dictionary on the heap. -/
structure HDoc where
  page_content : String
  meta : Addr
  similarity_score : Option HVal

/-- The contents of the fresh dictionary built for one document by the loop
body of qa_chain.py lines 94-102: `meta = dict(doc.metadata)` takes a shallow
copy — the same key-value pairs, values (including references to nested
mappings such as `raw_data`) shared — and `meta["similarity_score"] = ...`
then adds the score to that fresh dictionary when the attribute exists. -/
def entryOf (h : Heap) (doc : HDoc) : List (String × HVal) :=
  match doc.similarity_score with
  | some s => assocSet (heapGet h doc.meta) "similarity_score" s
  | none => heapGet h doc.meta

/-- Reference-semantics embedding of the metadata extraction loop of
`qa_search` (qa_chain.py lines 93-102).  Each iteration allocates the shallow
copy `entryOf` at the next free address and appends that address to
`docs_metadata`.  Returns the heap after the loop and the addresses of the
collected dictionaries. -/
def extract_docs_metadata (h : Heap) : List HDoc → Heap × List Addr
  | [] => (h, [])
  | doc :: rest =>
    let next := extract_docs_metadata (h ++ [entryOf h doc]) rest
    (next.1, h.length :: next.2)

/-- Read `metadata[k1][k2]` through one level of reference: the value of `k2`
inside the nested dictionary that key `k1` of the dictionary at `a` refers to
(e.g. a field of the `raw_data` mapping of a metadata dictionary). -/
def deepGet (h : Heap) (a : Addr) (k1 k2 : String) : Option HVal :=
  match assocGet (heapGet h a) k1 with
  | some (HVal.ref b) => assocGet (heapGet h b) k2
  | _ => none

/-- Embedding of the age-group assignment of `load_data`
(create_statistical_summary.py lines 57-62): `pd.cut` with bins
`[17, 25, 35, 50, 70]` (right-closed intervals) and labels
`["18-25", "26-35", "36-50", "51-70"]`; an age outside all bins gets no
bucket (NaN).  Customer ages are integers. -/
def age_bucket (age : Int) : Option String :=
  if 17 < age ∧ age ≤ 25 then some "18-25"
  else if 25 < age ∧ age ≤ 35 then some "26-35"
  else if 35 < age ∧ age ≤ 50 then some "36-50"
  else if 50 < age ∧ age ≤ 70 then some "51-70"
  else none

/-- A row of the sales dataframe, restricted to the field the bucketing
reads. -/
structure SalesRecord where
  customer_age : Int
deriving DecidableEq, Repr

/-- The rows aggregated into the per-age-group document of group `g`:
`sales_df[sales_df["Age_Group"] == age_group]`
(create_statistical_summary.py line 188). -/
def ageGroupChunk (records : List SalesRecord) (g : String) : List SalesRecord :=
  records.filter (fun r => age_bucket r.customer_age == some g)

/-- The rows aggregated into the overall-statistics document: the entire
dataframe (create_statistical_summary.py line 226). -/
def overallChunk (records : List SalesRecord) : List SalesRecord := records

/-- Spec-side statement of the rendered history block (spec section 4.1 step 2):
one line per turn, `"User: <content>"` or `"Assistant: <content>"`, each
followed by a blank-line separator, in chronological order; the empty history
renders to the empty string.  Used to compare the code's rendering against
the specification's wording. -/
def renderedHistoryBlock : List ChatMsg → String
  | [] => ""
  | m :: rest => historyLine m ++ renderedHistoryBlock rest

/-- The `n` most recent elements of a list, order preserved (Python `l[-n:]`). -/
def lastWindow (l : List α) (n : Nat) : List α := l.drop (l.length - n)

/-- A generation oracle that always succeeds with a fixed answer. -/
def okLLM : String → Except String String := fun _ => .ok "ANSWER"

/-- A generation oracle that returns the prompt it received, used to observe
what the chain actually sends to the LLM. -/
def echoLLM : String → Except String String := fun p => .ok p

/-- A concrete indexed document used by the witnesses. -/
def testDoc : Doc String :=
  { page_content := "DOC", metadata := [("type", "overall")], similarity_score := none }

/-- A concrete reachable one-document store used by the witnesses. -/
def testStore : VectorStore String :=
  { docs := [testDoc], rank := fun _ l => l, rank_perm := fun _ l => List.Perm.refl l
    reachable := true, failMsg := "unreachable" }

/-- A concrete unreachable store, whose search raises "boom". -/
def testStoreDown : VectorStore String :=
  { docs := [testDoc], rank := fun _ l => l, rank_perm := fun _ l => List.Perm.refl l
    reachable := false, failMsg := "boom" }

/-- The result `qa_search` computes on `testStore` with `okLLM`. -/
def qaOkResult : QAResult String :=
  { answer := "ANSWER", document_metadata := [[("type", "overall")]]
    raw_answer := "ANSWER", retrieved_count := some 1, error := none }

/-- The concrete query of the prompt-assembly scenario (spec section 8). -/
def widgetQuery : String := "What is the total sales for Widget A?"

/-- A concrete one-document store for the prompt-assembly scenario. -/
def widgetStore : VectorStore String :=
  { docs := [{ page_content := "WidgetA sales summary"
               metadata := [("type", "product")], similarity_score := none }]
    rank := fun _ l => l, rank_perm := fun _ l => List.Perm.refl l
    reachable := true, failMsg := "down" }

/-- The prompt the embedded chain sends for `widgetQuery` with empty history:
both the `{chat_history}` and `{question}` slots hold the string rendering of
the whole input dictionary. -/
def widgetPrompt : String :=
  templateHead ++ runnableInputStr widgetQuery "" ++
    templateMid1 ++ "WidgetA sales summary" ++
    templateMid2 ++ runnableInputStr widgetQuery "" ++ templateTail

/-- Ten messages already in the session state, the conversation-window cap. -/
def tenMsgs : List (AppMsg String) :=
  [⟨"user", "q1", none⟩, ⟨"assistant", "a1", none⟩, ⟨"user", "q2", none⟩,
   ⟨"assistant", "a2", none⟩, ⟨"user", "q3", none⟩, ⟨"assistant", "a3", none⟩,
   ⟨"user", "q4", none⟩, ⟨"assistant", "a4", none⟩, ⟨"user", "q5", none⟩,
   ⟨"assistant", "a5", none⟩]

/-- A concrete heap for the metadata-isolation scenario: address 0 holds a
stored document's metadata whose `raw_data` key references the dictionary at
address 1. -/
def isoHeap : Heap :=
  [[("type", HVal.str "overall"), ("raw_data", HVal.ref 1)], [("x", HVal.int 1)]]

/-- The stored document whose metadata lives at address 0 of `isoHeap`. -/
def isoDoc : HDoc := { page_content := "text", meta := 0, similarity_score := none }

/-- Whether a Python call returned normally (`true`) or raised (`false`). -/
def returnsNormally (x : Except ε α) : Bool :=
  match x with
  | .ok _ => true
  | .error _ => false

/-- Folding the history lines from any accumulator appends the block of the
remaining lines. -/
theorem foldl_historyLine (l : List ChatMsg) (acc : String) :
    l.foldl (fun acc m => acc ++ historyLine m) acc =
      acc ++ renderedHistoryBlock l := by
  induction l generalizing acc with
  | nil => simp [renderedHistoryBlock]
  | cons m rest ih =>
    rw [List.foldl_cons, ih, renderedHistoryBlock, String.append_assoc]

/-- The code's history rendering agrees with the spec-side block on every
explicitly passed list. -/
theorem chat_history_to_str_eq (l : List ChatMsg) :
    chat_history_to_str (some l) = renderedHistoryBlock l := by
  cases l with
  | nil => rfl
  | cons m rest => simp [chat_history_to_str, foldl_historyLine, renderedHistoryBlock]

/-- The caller's role normalisation does not change the rendered line. -/
theorem historyLine_normalize (r c : String) :
    historyLine ⟨if r = "user" then "user" else "assistant", c⟩ =
      historyLine ⟨r, c⟩ := by
  by_cases h : r = "user" <;> simp [historyLine, h]

/-- Rendering the normalised projection of messages equals rendering the raw
projection. -/
theorem renderedHistoryBlock_map (μ : Type) (msgs : List (AppMsg μ)) :
    renderedHistoryBlock (msgs.map (fun m =>
      (⟨if m.role = "user" then "user" else "assistant", m.content⟩ : ChatMsg))) =
    renderedHistoryBlock (msgs.map (fun m => (⟨m.role, m.content⟩ : ChatMsg))) := by
  induction msgs with
  | nil => rfl
  | cons m rest ih => simp [renderedHistoryBlock, historyLine_normalize, ih]

/-- `format_chat_history` is the normalised projection of the 10-message
window. -/
theorem format_chat_history_eq (μ : Type) (msgs : List (AppMsg μ)) :
    format_chat_history msgs 10 = (lastWindow msgs 10).map
      (fun m => (⟨if m.role = "user" then "user" else "assistant", m.content⟩ : ChatMsg)) := by
  unfold format_chat_history lastWindow
  by_cases h : msgs.length > 10
  · simp [h]
  · simp [h, Nat.sub_eq_zero_of_le (Nat.le_of_not_lt h)]

/-- A "User:" line never equals an "Assistant:" line with the same content. -/
theorem user_ne_assistant_line (c : String) :
    ("User: " ++ c ++ "\n\n" : String) ≠ "Assistant: " ++ c ++ "\n\n" := by
  intro hEq
  have hl := congrArg String.length hEq
  rw [String.length_append, String.length_append, String.length_append,
    String.length_append] at hl
  have h1 : ("User: " : String).length = 6 := rfl
  have h2 : ("Assistant: " : String).length = 11 := rfl
  omega

/-- Evaluation of `qa_search` when the store is unreachable: the retrieval
exception is caught and converted into the failure dictionary. -/
theorem qa_search_unreachable (μ : Type) (llm : String → Except String String)
    (query : String) (vs : VectorStore μ) (hist : Option (List ChatMsg)) (k : Nat)
    (hrc : vs.reachable = false) :
    qa_search llm query (some vs) hist k = .ok (mkErrorResult μ vs.failMsg) := by
  simp [qa_search, retrieverInvoke, hrc]

/-- Evaluation of `qa_search` when retrieval succeeds but the generation call
raises: the exception is caught and converted into the failure dictionary. -/
theorem qa_search_llm_error (μ : Type) (llm : String → Except String String)
    (query : String) (vs : VectorStore μ) (hist : Option (List ChatMsg)) (k : Nat)
    (e : String) (hrc : vs.reachable = true)
    (hl : llm (buildPrompt query (chat_history_to_str hist)
      ((vs.rank query vs.docs).take k)) = .error e) :
    qa_search llm query (some vs) hist k = .ok (mkErrorResult μ e) := by
  simp [qa_search, retrieverInvoke, hrc, hl]

/-- Evaluation of `qa_search` on the success path. -/
theorem qa_search_reachable_ok (μ : Type) (llm : String → Except String String)
    (query : String) (vs : VectorStore μ) (hist : Option (List ChatMsg)) (k : Nat)
    (ans : String) (hrc : vs.reachable = true)
    (hl : llm (buildPrompt query (chat_history_to_str hist)
      ((vs.rank query vs.docs).take k)) = .ok ans) :
    qa_search llm query (some vs) hist k = .ok
      { answer := ans
        document_metadata := ((vs.rank query vs.docs).take k).map extractMeta
        raw_answer := ans
        retrieved_count := some ((vs.rank query vs.docs).take k).length
        error := none } := by
  simp [qa_search, retrieverInvoke, hrc, hl]

/-- C1 (counterexample): calling `qa_search` itself with an absent index does
NOT return the claimed well-formed result — the call raises
(`None.as_retriever` on qa_chain.py line 44 is evaluated before the `try`
block), so at this concrete input the claim "the engine fails immediately and
returns a well-formed result ... and never raises out of the call" is false. -/
theorem qa_search_absent_index_raises :
    returnsNormally (qa_search okLLM "q" (none : Option (VectorStore String)) none 5) = false ∧
    qa_search okLLM "q" (none : Option (VectorStore String)) none 5 =
      .error "AttributeError: \x27NoneType\x27 object has no attribute \x27as_retriever\x27" :=
  ⟨rfl, rfl⟩

/-- C1 (amended): with an absent index, `qa_search` raises an `AttributeError`
out of the call for every query, history and `k`; the not-initialized failure
is instead handled by the caller: app.py's query processing with an absent
vectorstore never calls `qa_search`, displays the not-initialized error
message, and only appends the user turn — no retrieval or generation is
attempted. -/
theorem qa_search_absent_index_amended :
    ∀ (μ : Type) (llm : String → Except String String) (query : String)
      (hist : Option (List ChatMsg)) (k : Nat) (msgs : List (AppMsg μ)) (q2 : String),
      qa_search llm query (none : Option (VectorStore μ)) hist k =
        .error "AttributeError: \x27NoneType\x27 object has no attribute \x27as_retriever\x27" ∧
      (processQuery llm (none : Option (VectorStore μ)) msgs q2).errorShown =
        some "Knowledge base not initialized. Please try again." ∧
      (processQuery llm (none : Option (VectorStore μ)) msgs q2).messages =
        msgs ++ [⟨"user", q2, none⟩] :=
  fun _ _ _ _ _ _ _ => ⟨rfl, rfl, rfl⟩

/-- C4: history rendering through the caller pipeline
(`chat_history_to_str` after `format_chat_history` with the 10-message cap) is
order-preserving, capped and formatted: for every message list the rendered
block is exactly one `"User: <content>"`/`"Assistant: <content>"` line per
turn, each followed by a blank-line separator, over the most recent at most 10
turns in original chronological order; the empty and the omitted history
render to the empty string, and `qa_search` output is identical for an
omitted history and an empty list. -/
theorem history_rendering_capped_ordered :
    (∀ (μ : Type) (msgs : List (AppMsg μ)),
      chat_history_to_str (some (format_chat_history msgs 10)) =
        renderedHistoryBlock ((lastWindow msgs 10).map
          (fun m => (⟨m.role, m.content⟩ : ChatMsg)))) ∧
    chat_history_to_str (some []) = "" ∧
    chat_history_to_str none = "" ∧
    (∀ (μ : Type) (llm : String → Except String String) (query : String)
      (vs : Option (VectorStore μ)) (k : Nat),
      qa_search llm query vs none k = qa_search llm query vs (some []) k) := by
  refine ⟨?_, rfl, rfl, ?_⟩
  · intro μ msgs
    rw [chat_history_to_str_eq, format_chat_history_eq, renderedHistoryBlock_map]
  · intro μ llm query vs k
    cases vs <;> rfl

/-- C9: a history turn is rendered with the "User:" line exactly when its role
is the string "user", and with the "Assistant:" line for every other role;
likewise the caller's `format_chat_history` normalises a role to "user"
exactly when it equals "user" and to "assistant" otherwise. -/
theorem role_prefix_iff_user :
    ∀ (μ : Type) (m : ChatMsg) (a : AppMsg μ),
      ((chat_history_to_str (some [m]) = "User: " ++ m.content ++ "\n\n") ↔
        m.role = "user") ∧
      ((chat_history_to_str (some [m]) = "Assistant: " ++ m.content ++ "\n\n") ↔
        ¬ m.role = "user") ∧
      ((format_chat_history [a] 10 = [⟨"user", a.content⟩]) ↔ a.role = "user") ∧
      ((format_chat_history [a] 10 = [⟨"assistant", a.content⟩]) ↔ ¬ a.role = "user") := by
  intro μ m a
  have hm : chat_history_to_str (some [m]) = historyLine m := by
    rw [chat_history_to_str_eq]
    simp [renderedHistoryBlock]
  refine ⟨?_, ?_, ?_, ?_⟩
  · rw [hm]
    unfold historyLine
    by_cases h : m.role = "user"
    · rw [if_pos h]
      exact iff_of_true rfl h
    · rw [if_neg h]
      refine iff_of_false ?_ h
      intro hEq
      exact user_ne_assistant_line m.content hEq.symm
  · rw [hm]
    unfold historyLine
    by_cases h : m.role = "user"
    · rw [if_pos h]
      refine iff_of_false ?_ (fun hc => hc h)
      intro hEq
      exact user_ne_assistant_line m.content hEq
    · rw [if_neg h]
      exact iff_of_true rfl h
  · by_cases h : a.role = "user"
    · exact iff_of_true (by simp [format_chat_history, h]) h
    · refine iff_of_false ?_ h
      intro hEq
      rw [show format_chat_history [a] 10 =
        [⟨"assistant", a.content⟩] by simp [format_chat_history, h]] at hEq
      have : ("assistant" : String) = "user" := congrArg ChatMsg.role (List.head_eq_of_cons_eq hEq)
      exact absurd this (by decide)
  · by_cases h : a.role = "user"
    · refine iff_of_false ?_ (fun hc => hc h)
      intro hEq
      rw [show format_chat_history [a] 10 =
        [⟨"user", a.content⟩] by simp [format_chat_history, h]] at hEq
      have : ("user" : String) = "assistant" := congrArg ChatMsg.role (List.head_eq_of_cons_eq hEq)
      exact absurd this (by decide)
    · exact iff_of_true (by simp [format_chat_history, h]) h

/-- C2: any failure of retrieval (unreachable store) or generation (LLM call
raising) inside `qa_search` is caught: the call always returns normally for a
present store, and the returned dictionary has an answer that embeds the
underlying cause and starts with "Error" (hence contains that substring),
empty `document_metadata`, no `retrieved_count` key, and the raw cause in
`error`. -/
theorem qa_search_failure_isolation :
    ∀ (μ : Type) (llm : String → Except String String) (query : String)
      (vs : VectorStore μ) (hist : Option (List ChatMsg)) (k : Nat),
      (∃ r, qa_search llm query (some vs) hist k = .ok r) ∧
      (vs.reachable = false →
        qa_search llm query (some vs) hist k = .ok (mkErrorResult μ vs.failMsg)) ∧
      (∀ e, vs.reachable = true →
        llm (buildPrompt query (chat_history_to_str hist)
          ((vs.rank query vs.docs).take k)) = .error e →
        qa_search llm query (some vs) hist k = .ok (mkErrorResult μ e)) ∧
      (∀ e, (mkErrorResult μ e).answer = "Error querying the model: " ++ e ∧
        (∃ rest, (mkErrorResult μ e).answer = "Error" ++ rest) ∧
        (mkErrorResult μ e).document_metadata = [] ∧
        (mkErrorResult μ e).retrieved_count = none ∧
        (mkErrorResult μ e).error = some e) := by
  intro μ llm query vs hist k
  refine ⟨?_, qa_search_unreachable μ llm query vs hist k, ?_, ?_⟩
  · cases hrc : vs.reachable with
    | false => exact ⟨_, qa_search_unreachable μ llm query vs hist k hrc⟩
    | true =>
      cases hl : llm (buildPrompt query (chat_history_to_str hist)
          ((vs.rank query vs.docs).take k)) with
      | error e => exact ⟨_, qa_search_llm_error μ llm query vs hist k e hrc hl⟩
      | ok ans => exact ⟨_, qa_search_reachable_ok μ llm query vs hist k ans hrc hl⟩
  · intro e hrc hl
    exact qa_search_llm_error μ llm query vs hist k e hrc hl
  · intro e
    refine ⟨rfl, ⟨" querying the model: " ++ e, ?_⟩, rfl, rfl, rfl⟩
    rw [← String.append_assoc]
    exact congrArg (fun s => s ++ e) (by decide)

/-- Witness for C2: the unreachable test store makes `qa_search` return the
failure dictionary for the cause "boom" instead of raising. -/
theorem qa_search_failure_isolation_witness :
    qa_search okLLM "q" (some testStoreDown) none 5 =
      .ok (mkErrorResult String "boom") :=
  (qa_search_failure_isolation String okLLM "q" testStoreDown none 5).2.1 rfl

/-- C10: every dictionary actually returned by `qa_search` has
`raw_answer` equal to `answer`, and either carries `retrieved_count` and no
`error` key (success path) or an `error` value and no `retrieved_count` key
(failure path). -/
theorem qa_search_result_shape :
    ∀ (μ : Type) (llm : String → Except String String) (query : String)
      (vectorstore : Option (VectorStore μ)) (hist : Option (List ChatMsg))
      (k : Nat) (r : QAResult μ),
      qa_search llm query vectorstore hist k = .ok r →
      r.raw_answer = r.answer ∧
      (((∃ n, r.retrieved_count = some n) ∧ r.error = none) ∨
        (r.retrieved_count = none ∧ ∃ e, r.error = some e)) := by
  intro μ llm query vsOpt hist k r h
  cases vsOpt with
  | none => simp [qa_search] at h
  | some vs =>
    cases hrc : vs.reachable with
    | false =>
      rw [qa_search_unreachable μ llm query vs hist k hrc] at h
      injection h with h'
      subst h'
      exact ⟨rfl, Or.inr ⟨rfl, vs.failMsg, rfl⟩⟩
    | true =>
      cases hl : llm (buildPrompt query (chat_history_to_str hist)
          ((vs.rank query vs.docs).take k)) with
      | error e =>
        rw [qa_search_llm_error μ llm query vs hist k e hrc hl] at h
        injection h with h'
        subst h'
        exact ⟨rfl, Or.inr ⟨rfl, e, rfl⟩⟩
      | ok ans =>
        rw [qa_search_reachable_ok μ llm query vs hist k ans hrc hl] at h
        injection h with h'
        subst h'
        exact ⟨rfl, Or.inl ⟨⟨_, rfl⟩, rfl⟩⟩

/-- Witness for C10 at a concrete successful call. -/
theorem qa_search_result_shape_witness :
    qaOkResult.raw_answer = qaOkResult.answer ∧
    (((∃ n, qaOkResult.retrieved_count = some n) ∧ qaOkResult.error = none) ∨
      (qaOkResult.retrieved_count = none ∧ ∃ e, qaOkResult.error = some e)) :=
  qa_search_result_shape String okLLM "q" (some testStore) none 5 qaOkResult rfl

/-- C6: a successful `qa_search` call (store present, no error in the result)
requests the top `k` documents and reports `retrieved_count` equal to the
number of documents the search returned: `k` when the index holds at least
`k` documents and the index size otherwise; the metadata list has the same
length. -/
theorem qa_search_retrieved_count :
    ∀ (μ : Type) (llm : String → Except String String) (query : String)
      (vs : VectorStore μ) (hist : Option (List ChatMsg)) (k : Nat) (r : QAResult μ),
      1 ≤ k →
      qa_search llm query (some vs) hist k = .ok r →
      r.error = none →
      r.retrieved_count = some (min k vs.docs.length) ∧
      r.document_metadata.length = min k vs.docs.length ∧
      (k ≤ vs.docs.length → r.retrieved_count = some k) ∧
      (vs.docs.length < k → r.retrieved_count = some vs.docs.length) := by
  intro μ llm query vs hist k r hk h hnoerr
  cases hrc : vs.reachable with
  | false =>
    rw [qa_search_unreachable μ llm query vs hist k hrc] at h
    injection h with h'
    subst h'
    simp [mkErrorResult] at hnoerr
  | true =>
    cases hl : llm (buildPrompt query (chat_history_to_str hist)
        ((vs.rank query vs.docs).take k)) with
    | error e =>
      rw [qa_search_llm_error μ llm query vs hist k e hrc hl] at h
      injection h with h'
      subst h'
      simp [mkErrorResult] at hnoerr
    | ok ans =>
      rw [qa_search_reachable_ok μ llm query vs hist k ans hrc hl] at h
      injection h with h'
      subst h'
      have hlen : ((vs.rank query vs.docs).take k).length = min k vs.docs.length := by
        rw [List.length_take, (vs.rank_perm query vs.docs).length_eq]
      refine ⟨by rw [hlen], by simpa using hlen, ?_, ?_⟩
      · intro hkle
        rw [hlen, Nat.min_eq_left hkle]
      · intro hlt
        rw [hlen, Nat.min_eq_right (Nat.le_of_lt hlt)]

/-- Witness for C6 at a concrete successful call: `k = 5` against a
one-document index yields `retrieved_count = 1`, the index size. -/
theorem qa_search_retrieved_count_witness :
    qaOkResult.retrieved_count = some (min 5 testStore.docs.length) ∧
    qaOkResult.document_metadata.length = min 5 testStore.docs.length ∧
    (5 ≤ testStore.docs.length → qaOkResult.retrieved_count = some 5) ∧
    (testStore.docs.length < 5 →
      qaOkResult.retrieved_count = some testStore.docs.length) :=
  qa_search_retrieved_count String okLLM "q" testStore none 5 qaOkResult
    (by decide) rfl rfl

/-- C3: evaluation of the embedded chain at a concrete input.  The prompt the
generation call receives does NOT get the literal question in its
`{question}` slot nor the rendered history block in its `{chat_history}`
slot: `RunnablePassthrough()` passes the whole chain input dictionary, so both
slots hold the string rendering of
`\x7b"question": ..., "chat_history": ...\x7d` (which differs from the query
string), while the `{context}` slot correctly holds the retrieved documents'
text. -/
theorem prompt_slots_receive_whole_input :
    qa_search echoLLM widgetQuery (some widgetStore) none 5 =
      .ok { answer := widgetPrompt
            document_metadata := [[("type", "product")]]
            raw_answer := widgetPrompt
            retrieved_count := some 1
            error := none } ∧
    widgetPrompt =
      templateHead ++ runnableInputStr widgetQuery "" ++ templateMid1 ++
        "WidgetA sales summary" ++ templateMid2 ++
        runnableInputStr widgetQuery "" ++ templateTail ∧
    runnableInputStr widgetQuery "" ≠ widgetQuery ∧
    runnableInputStr widgetQuery "" =
      "\x7b\x27question\x27: \x27What is the total sales for Widget A?\x27, \x27chat_history\x27: \x27\x27\x7d" := by
  refine ⟨?_, rfl, ?_, rfl⟩
  · rfl
  · decide

/-- The success-path trim of app.py equals the 10-message window. -/
theorem trim_eq_lastWindow (l : List α) :
    (if l.length > 10 then l.drop (l.length - 10) else l) = lastWindow l 10 := by
  by_cases h : l.length > 10
  · rw [if_pos h]; rfl
  · rw [if_neg h]
    unfold lastWindow
    rw [Nat.sub_eq_zero_of_le (Nat.le_of_not_lt h), List.drop_zero]

/-- The 10-message window never exceeds 10 messages. -/
theorem lastWindow_length_le (l : List α) : (lastWindow l 10).length ≤ 10 := by
  unfold lastWindow
  rw [List.length_drop]
  omega

/-- The 10-message window is a suffix of the original list (most recent
messages, order preserved). -/
theorem lastWindow_suffix (l : List α) : List.IsSuffix (lastWindow l 10) l :=
  List.drop_suffix _ _

/-- C7 (counterexample): with ten messages already in the session state and an
absent vectorstore, processing one more query appends the user turn on the
failure path without any trim, leaving the conversation state at 11 turns —
the claim "after each append the length is trimmed to at most the 10 most
recent turns" is false at this concrete input. -/
theorem conversation_trim_counterexample :
    (processQuery okLLM (none : Option (VectorStore String)) tenMsgs "q6").messages.length = 11 ∧
    ¬ (processQuery okLLM (none : Option (VectorStore String)) tenMsgs "q6").messages.length ≤ 10 := by
  have h : (processQuery okLLM (none : Option (VectorStore String)) tenMsgs "q6").messages.length = 11 := rfl
  refine ⟨h, ?_⟩
  rw [h]
  omega

/-- C7 (amended): on the success path (store present and no error shown),
after appending the user and assistant turns the conversation state is
trimmed to the 10 most recent turns — a suffix of the appended sequence, so
earlier turns are dropped and the survivors keep their order — and its length
never exceeds 10; an explicit reset (`clear_chat`) leaves the state empty.
On the failure paths (absent index, engine exception, or engine-returned
failure dictionary) only the user turn is appended and no trim runs. -/
theorem conversation_trim_amended :
    ∀ (μ : Type) (llm : String → Except String String) (vs : VectorStore μ)
      (msgs : List (AppMsg μ)) (query : String),
      ((processQuery llm (some vs) msgs query).errorShown = none →
        ∃ ans meta,
          (processQuery llm (some vs) msgs query).messages =
            lastWindow (msgs ++ [⟨"user", query, none⟩, ⟨"assistant", ans, meta⟩]) 10 ∧
          (processQuery llm (some vs) msgs query).messages.length ≤ 10 ∧
          List.IsSuffix (processQuery llm (some vs) msgs query).messages
            (msgs ++ [⟨"user", query, none⟩, ⟨"assistant", ans, meta⟩])) ∧
      (∀ s : AppState μ, (clear_chat s).messages = []) := by
  intro μ llm vs msgs query
  refine ⟨?_, fun s => rfl⟩
  intro hno
  cases hq : qa_search llm query (some vs) (some (format_chat_history msgs 10)) 6 with
  | error e =>
    rw [show processQuery llm (some vs) msgs query =
      ⟨msgs ++ [⟨"user", query, none⟩], some ("Error generating response: " ++ e)⟩
      by simp [processQuery, hq]] at hno
    simp at hno
  | ok result =>
    cases hrc : result.retrieved_count with
    | none =>
      rw [show processQuery llm (some vs) msgs query =
        ⟨msgs ++ [⟨"user", query, none⟩],
          some "Error generating response: \x27retrieved_count\x27"⟩
        by simp [processQuery, hq, hrc]] at hno
      simp at hno
    | some n =>
      have heq : (processQuery llm (some vs) msgs query).messages =
          lastWindow (msgs ++ [⟨"user", query, none⟩,
            ⟨"assistant", result.answer, some result.document_metadata⟩]) 10 := by
        rw [← trim_eq_lastWindow]
        simp [processQuery, hq, hrc]
      refine ⟨result.answer, some result.document_metadata, heq, ?_, ?_⟩
      · rw [heq]
        exact lastWindow_length_le _
      · rw [heq]
        exact lastWindow_suffix _

/-- Witness for C7 (amended) at a concrete successful call on the empty
state. -/
theorem conversation_trim_amended_witness :
    ∃ ans meta,
      (processQuery okLLM (some testStore) ([] : List (AppMsg String)) "q").messages =
        lastWindow ([] ++ [⟨"user", "q", none⟩, ⟨"assistant", ans, meta⟩]) 10 ∧
      (processQuery okLLM (some testStore) ([] : List (AppMsg String)) "q").messages.length ≤ 10 ∧
      List.IsSuffix (processQuery okLLM (some testStore) ([] : List (AppMsg String)) "q").messages
        ([] ++ [⟨"user", "q", none⟩, ⟨"assistant", ans, meta⟩]) :=
  (conversation_trim_amended String okLLM testStore [] "q").1 rfl

/-- C8: every age in 18-25, 26-35, 36-50 or 51-70 is assigned exactly the
corresponding one of the four fixed bins; ages outside 18-70 receive no
bucket, are excluded from every per-age-group aggregation chunk, and remain
in the overall-dataset aggregation chunk. -/
theorem age_bucketing_bins :
    ∀ (age : Int) (records : List SalesRecord) (r : SalesRecord) (g : String),
      ((18 ≤ age ∧ age ≤ 25) ↔ age_bucket age = some "18-25") ∧
      ((26 ≤ age ∧ age ≤ 35) ↔ age_bucket age = some "26-35") ∧
      ((36 ≤ age ∧ age ≤ 50) ↔ age_bucket age = some "36-50") ∧
      ((51 ≤ age ∧ age ≤ 70) ↔ age_bucket age = some "51-70") ∧
      ((age < 18 ∨ 70 < age) ↔ age_bucket age = none) ∧
      (r ∈ records → age_bucket r.customer_age = none →
        r ∉ ageGroupChunk records g ∧ r ∈ overallChunk records) := by
  intro age records r g
  refine ⟨?_, ?_, ?_, ?_, ?_, ?_⟩
  · unfold age_bucket
    split_ifs with c1 c2 c3 c4
    · exact iff_of_true (by omega) rfl
    · exact iff_of_false (by omega) (by decide)
    · exact iff_of_false (by omega) (by decide)
    · exact iff_of_false (by omega) (by decide)
    · exact iff_of_false (by omega) (by decide)
  · unfold age_bucket
    split_ifs with c1 c2 c3 c4
    · exact iff_of_false (by omega) (by decide)
    · exact iff_of_true (by omega) rfl
    · exact iff_of_false (by omega) (by decide)
    · exact iff_of_false (by omega) (by decide)
    · exact iff_of_false (by omega) (by decide)
  · unfold age_bucket
    split_ifs with c1 c2 c3 c4
    · exact iff_of_false (by omega) (by decide)
    · exact iff_of_false (by omega) (by decide)
    · exact iff_of_true (by omega) rfl
    · exact iff_of_false (by omega) (by decide)
    · exact iff_of_false (by omega) (by decide)
  · unfold age_bucket
    split_ifs with c1 c2 c3 c4
    · exact iff_of_false (by omega) (by decide)
    · exact iff_of_false (by omega) (by decide)
    · exact iff_of_false (by omega) (by decide)
    · exact iff_of_true (by omega) rfl
    · exact iff_of_false (by omega) (by decide)
  · unfold age_bucket
    split_ifs with c1 c2 c3 c4
    · exact iff_of_false (by omega) (by decide)
    · exact iff_of_false (by omega) (by decide)
    · exact iff_of_false (by omega) (by decide)
    · exact iff_of_false (by omega) (by decide)
    · exact iff_of_true (by omega) rfl
  · intro hr hnone
    refine ⟨?_, hr⟩
    intro hmem
    rw [ageGroupChunk, List.mem_filter] at hmem
    rcases hmem with ⟨-, hp⟩
    rw [hnone] at hp
    simp at hp

/-- Witness for C8: age 16 gets no bucket, is excluded from the "18-25"
chunk but kept in the overall chunk; age 30 is bucketed into "26-35". -/
theorem age_bucketing_bins_witness :
    age_bucket 16 = none ∧
    (⟨16⟩ : SalesRecord) ∉ ageGroupChunk [⟨16⟩] "18-25" ∧
    (⟨16⟩ : SalesRecord) ∈ overallChunk [⟨16⟩] ∧
    age_bucket 30 = some "26-35" := by
  have h16 := age_bucketing_bins 16 [⟨16⟩] ⟨16⟩ "18-25"
  have h30 := age_bucketing_bins 30 [⟨16⟩] ⟨16⟩ "18-25"
  have hnone : age_bucket 16 = none := h16.2.2.2.2.1.mp (Or.inl (by decide))
  have hmem := h16.2.2.2.2.2 (by decide) hnone
  exact ⟨hnone, hmem.1, hmem.2, h30.2.1.mp ⟨by decide, by decide⟩⟩

/-- Reading below the length of the left part ignores an appended tail. -/
theorem heapGet_append (h t : Heap) (i : Nat) (hi : i < h.length) :
    heapGet (h ++ t) i = heapGet h i := by
  simp [heapGet, List.getD, List.getElem?_append, hi]

/-- Mutating the dictionary at one address leaves every other address
unchanged. -/
theorem heapGet_set_ne (h : Heap) (a : Addr) (k : String) (v : HVal) (i : Nat)
    (hne : i ≠ a) : heapGet (heapSet h a k v) i = heapGet h i := by
  simp [heapGet, heapSet, List.getD, List.getElem?_set_ne (Ne.symm hne)]

/-- The extraction loop only appends fresh dictionaries to the heap. -/
theorem extract_fst_append (docs : List HDoc) :
    ∀ h : Heap, ∃ tail, (extract_docs_metadata h docs).1 = h ++ tail := by
  induction docs with
  | nil => exact fun h => ⟨[], by simp [extract_docs_metadata]⟩
  | cons d rest ih =>
    intro h
    obtain ⟨tail, ht⟩ := ih (h ++ [entryOf h d])
    refine ⟨[entryOf h d] ++ tail, ?_⟩
    show (extract_docs_metadata (h ++ [entryOf h d]) rest).1 = h ++ ([entryOf h d] ++ tail)
    rw [ht, List.append_assoc]

/-- Dictionaries that existed before the extraction are untouched by it. -/
theorem extract_preserves (docs : List HDoc) (h : Heap) (i : Nat)
    (hi : i < h.length) :
    heapGet (extract_docs_metadata h docs).1 i = heapGet h i := by
  obtain ⟨tail, ht⟩ := extract_fst_append docs h
  rw [ht, heapGet_append _ _ _ hi]

/-- The addresses returned by the extraction are the consecutive fresh
addresses starting at the old heap size. -/
theorem extract_addrs (docs : List HDoc) :
    ∀ h : Heap, (extract_docs_metadata h docs).2 =
      List.range' h.length docs.length := by
  induction docs with
  | nil => intro h; simp [extract_docs_metadata]
  | cons d rest ih =>
    intro h
    show h.length :: (extract_docs_metadata (h ++ [entryOf h d]) rest).2 =
      List.range' h.length (rest.length + 1)
    rw [ih (h ++ [entryOf h d]), List.range'_succ]
    simp

/-- The shallow-copy contents are insensitive to heap growth as long as the
source dictionary already existed. -/
theorem entryOf_append (h t : Heap) (d : HDoc) (hd : d.meta < h.length) :
    entryOf (h ++ t) d = entryOf h d := by
  unfold entryOf
  rw [heapGet_append _ _ _ hd]

/-- After the extraction, the fresh dictionary for the `j`-th document holds
exactly the shallow copy of that document's metadata as it was in the
original heap. -/
theorem extract_content (docs : List HDoc) :
    ∀ h : Heap, (∀ d ∈ docs, d.meta < h.length) →
      ∀ j, j < docs.length →
        heapGet (extract_docs_metadata h docs).1 (h.length + j) =
          entryOf h (docs.getD j ⟨"", 0, none⟩) := by
  induction docs with
  | nil =>
    intro h _ j hj
    exact absurd hj (by simp)
  | cons d rest ih =>
    intro h hmeta j hj
    cases j with
    | zero =>
      show heapGet (extract_docs_metadata (h ++ [entryOf h d]) rest).1 (h.length + 0) =
        entryOf h d
      obtain ⟨tail, ht⟩ := extract_fst_append rest (h ++ [entryOf h d])
      rw [ht, Nat.add_zero,
        heapGet_append (h ++ [entryOf h d]) tail h.length (by simp)]
      simp [heapGet, List.getD, List.getElem?_append_right (Nat.le_refl h.length)]
    | succ j' =>
      have hd : d.meta < h.length := hmeta d (List.mem_cons_self d rest)
      have hm : ∀ d' ∈ rest, d'.meta < (h ++ [entryOf h d]).length := by
        intro d' hd'
        have hlt := hmeta d' (List.mem_cons_of_mem d hd')
        rw [List.length_append, List.length_singleton]
        exact Nat.lt_succ_of_lt hlt
      have hj' : j' < rest.length := by
        simpa using hj
      have hrec := ih (h ++ [entryOf h d]) hm j' hj'
      have hmem : (rest.getD j' ⟨"", 0, none⟩) ∈ rest := by
        rw [List.getD_eq_getElem?_getD, List.getElem?_eq_getElem hj']
        exact List.getElem_mem _
      have hstable := entryOf_append h [entryOf h d] (rest.getD j' ⟨"", 0, none⟩)
        (hmeta _ (List.mem_cons_of_mem d hmem))
      show heapGet (extract_docs_metadata (h ++ [entryOf h d]) rest).1
        (h.length + (j' + 1)) = entryOf h ((d :: rest).getD (j' + 1) ⟨"", 0, none⟩)
      have haddr : h.length + (j' + 1) = (h ++ [entryOf h d]).length + j' := by
        rw [List.length_append, List.length_singleton]
        omega
      rw [haddr, hrec, hstable]
      rfl

/-- C5 (counterexample): `dict(doc.metadata)` is a shallow copy.  At this
concrete heap, the extraction returns a fresh dictionary (address 2) whose
contents equal the stored metadata (address 0), but its `raw_data` key still
references the same nested dictionary (address 1) as the stored metadata.
Mutating that nested mapping through the returned entry
(`returned["raw_data"]["x"] = 2`) changes what the stored document's
metadata reaches through its own `raw_data` key from 1 to 2 — so the claim
that mutation of a returned entry "including its nested raw_data mapping"
leaves the stored metadata unchanged is false. -/
theorem metadata_shallow_copy_counterexample :
    (extract_docs_metadata isoHeap [isoDoc]).2 = [2] ∧
    heapGet (extract_docs_metadata isoHeap [isoDoc]).1 2 = heapGet isoHeap 0 ∧
    assocGet (heapGet (extract_docs_metadata isoHeap [isoDoc]).1 2) "raw_data" =
      some (HVal.ref 1) ∧
    deepGet (extract_docs_metadata isoHeap [isoDoc]).1 0 "raw_data" "x" =
      some (HVal.int 1) ∧
    deepGet (heapSet (extract_docs_metadata isoHeap [isoDoc]).1 1 "x" (HVal.int 2))
      0 "raw_data" "x" = some (HVal.int 2) ∧
    deepGet (heapSet (extract_docs_metadata isoHeap [isoDoc]).1 1 "x" (HVal.int 2))
        0 "raw_data" "x" ≠
      deepGet (extract_docs_metadata isoHeap [isoDoc]).1 0 "raw_data" "x" := by
  refine ⟨rfl, rfl, rfl, rfl, rfl, ?_⟩
  decide

/-- C5 (amended): the extraction gives each retrieved document a fresh
dictionary — at the consecutive addresses past the old heap — whose contents
are a shallow copy of the stored metadata as it was before the call
(including `similarity_score` when the attribute is present, via `entryOf`);
the extraction itself leaves every pre-existing dictionary unchanged, and any
later top-level mutation of a returned dictionary also leaves every
pre-existing dictionary unchanged.  (Nested mappings such as `raw_data`
remain shared by reference, as the counterexample shows.) -/
theorem metadata_shallow_copy_amended :
    ∀ (h : Heap) (docs : List HDoc),
      (∀ d ∈ docs, d.meta < h.length) →
      ((extract_docs_metadata h docs).2 = List.range' h.length docs.length ∧
       (∀ i, i < h.length →
         heapGet (extract_docs_metadata h docs).1 i = heapGet h i) ∧
       (∀ j, j < docs.length →
         heapGet (extract_docs_metadata h docs).1 (h.length + j) =
           entryOf h (docs.getD j ⟨"", 0, none⟩)) ∧
       (∀ a ∈ (extract_docs_metadata h docs).2, ∀ k v i, i < h.length →
         heapGet (heapSet (extract_docs_metadata h docs).1 a k v) i = heapGet h i)) := by
  intro h docs hmeta
  refine ⟨extract_addrs docs h, fun i hi => extract_preserves docs h i hi,
    fun j hj => extract_content docs h hmeta j hj, ?_⟩
  intro a ha k v i hi
  have hge : h.length ≤ a := by
    rw [extract_addrs docs h] at ha
    have := List.mem_range'_1.mp ha
    omega
  rw [heapGet_set_ne _ _ _ _ _ (by omega)]
  exact extract_preserves docs h i hi

/-- Witness for C5 (amended) at the concrete isolation heap. -/
theorem metadata_shallow_copy_amended_witness :
    (extract_docs_metadata isoHeap [isoDoc]).2 = List.range' isoHeap.length 1 ∧
    (∀ i, i < isoHeap.length →
      heapGet (extract_docs_metadata isoHeap [isoDoc]).1 i = heapGet isoHeap i) ∧
    (∀ j, j < 1 →
      heapGet (extract_docs_metadata isoHeap [isoDoc]).1 (isoHeap.length + j) =
        entryOf isoHeap ([isoDoc].getD j ⟨"", 0, none⟩)) ∧
    (∀ a ∈ (extract_docs_metadata isoHeap [isoDoc]).2, ∀ k v i, i < isoHeap.length →
      heapGet (heapSet (extract_docs_metadata isoHeap [isoDoc]).1 a k v) i =
        heapGet isoHeap i) :=
  metadata_shallow_copy_amended isoHeap [isoDoc] (by decide)
